import Mathlib

/-!
Verification of the concurrent batch-download orchestrator
(`bilibili_api_client.py` + `video_portrait_downloader.py`).

The shallow embedding models the network and filesystem through an
explicit environment (`Env`): each remote call's outcome (parsed result
or an escaping exception) is a field, and the functions below mirror the
control flow of the Python source line by line.  Machine effects that the
claims quantify over — the number of network requests issued, the durable
CSV file, the set of on-disk artifacts — are threaded explicitly.
-/

/-- Parsed response of the subtitle-list endpoint (`get_subtitle_urls`,
`bilibili_api_client.py` lines 29-44): HTTP status code, application-level
`code`, and the list of subtitle language labels (`lan_doc`). -/
structure SubtitleApiResponse where
  status_code : Nat
  code : Int
  subtitles : List String
deriving DecidableEq, Repr

/-- The record dictionary built by `download_single_video`
(`bilibili_api_client.py` lines 99-107). The timestamp field is omitted:
no claim mentions it. -/
structure DownloadRecord where
  bvid : String
  status : String
  video_downloaded : Bool
  audio_downloaded : Bool
  subtitle_count : Nat
  error_message : String
deriving DecidableEq, Repr

/-- Environment for one execution of `download_single_video`: the outcome
of each remote interaction and filesystem probe, in program order.
`Except.error e` models an exception escaping that call (caught by the
outer handler at lines 157-159); `Except.ok` carries the parsed value. -/
structure Env where
  infoFetch : Except String Int
  video_exists : Bool
  audio_exists : Bool
  playFetch : Except String Int
  video_dl : Bool
  audio_dl : Bool
  subFetch : Except String SubtitleApiResponse
  sub_dl : String → Bool

/-- `get_subtitle_urls` (lines 29-44): on HTTP 200 with application code 0
it returns the subtitle entries, otherwise it returns the empty list.
An exception during the request or JSON parsing is modelled upstream as
`Env.subFetch = Except.error e`. -/
def get_subtitle_urls (resp : SubtitleApiResponse) : List String :=
  if resp.status_code = 200 ∧ resp.code = 0 then resp.subtitles else []

/-- The record as initialised at `download_single_video` lines 99-107:
status starts as "skipped", both download flags false. -/
def initRecord (bvid : String) : DownloadRecord :=
  { bvid := bvid
    status := "skipped"
    video_downloaded := false
    audio_downloaded := false
    subtitle_count := 0
    error_message := "" }

/-- `download_single_video` (lines 97-161), returning the outcome record
together with the number of network requests issued.  Control flow in
source order: metadata fetch (1 request); on non-zero code return failed;
existence check of the two artifact paths, returning the initial
("skipped") record if both exist; play-URL fetch (1 request); concurrent
download of the two streams (2 requests); subtitle-list fetch (1 request,
an exception here is caught by the outer handler with the download flags
already set); one request per subtitle entry, counting successes. -/
def download_single_video (env : Env) (bvid : String) : DownloadRecord × Nat :=
  let record := initRecord bvid
  match env.infoFetch with
  | Except.error e => ({ record with status := "failed", error_message := e }, 1)
  | Except.ok code =>
    if code ≠ 0 then
      ({ record with status := "failed", error_message := "Failed to get video info" }, 1)
    else if env.video_exists ∧ env.audio_exists then
      (record, 1)
    else
      match env.playFetch with
      | Except.error e =>
        ({ record with status := "failed", error_message := e }, 2)
      | Except.ok pcode =>
        if pcode ≠ 0 then
          ({ record with status := "failed", error_message := "Failed to get play URL" }, 2)
        else
          let v := env.video_dl
          let a := env.audio_dl
          match env.subFetch with
          | Except.error e =>
            ({ record with
                status := "failed"
                error_message := e
                video_downloaded := v
                audio_downloaded := a }, 5)
          | Except.ok resp =>
            let subs := get_subtitle_urls resp
            let cnt := (subs.filter env.sub_dl).length
            let st := if v && a then "success" else "partial"
            ({ record with
                status := st
                video_downloaded := v
                audio_downloaded := a
                subtitle_count := cnt }, 5 + subs.length)

/-- Environment in which both stream downloads fail while every fetch
succeeds: reaches the status-computation step with both flags false. -/
def envBothFail : Env :=
  { infoFetch := Except.ok 0
    video_exists := false
    audio_exists := false
    playFetch := Except.ok 0
    video_dl := false
    audio_dl := false
    subFetch := Except.ok { status_code := 200, code := 0, subtitles := [] }
    sub_dl := fun _ => false }

/-- Environment in which both target artifacts already exist on disk and
the metadata fetch succeeds. -/
def envSkip : Env :=
  { infoFetch := Except.ok 0
    video_exists := true
    audio_exists := true
    playFetch := Except.ok 0
    video_dl := false
    audio_dl := false
    subFetch := Except.ok { status_code := 200, code := 0, subtitles := [] }
    sub_dl := fun _ => false }

/-- Environment in which both streams download successfully and then the
subtitle-list fetch raises an escaping exception. -/
def envSubRaise : Env :=
  { infoFetch := Except.ok 0
    video_exists := false
    audio_exists := false
    playFetch := Except.ok 0
    video_dl := true
    audio_dl := true
    subFetch := Except.error "Connection reset by peer"
    sub_dl := fun _ => false }

/-- C1 (counterexample): when both stream downloads fail, the code sets
status to "partial" with `video_downloaded = audio_downloaded = false`,
refuting the claimed biconditional `status = "partial" ⇔ exactly one of
the two flags is true`. -/
theorem c1_status_biconditional_refuted :
    ((download_single_video envBothFail "BV1").1.status = "partial") ∧
    ¬(((download_single_video envBothFail "BV1").1.status = "partial") ↔
      ((download_single_video envBothFail "BV1").1.video_downloaded ≠
        (download_single_video envBothFail "BV1").1.audio_downloaded)) := by
  decide

/-- C1 (amended): on every execution — all environments, hence also the
failed and skipped paths — status "success" implies both flags true; and
whenever execution reaches the status-computation step (all fetches
return, artifacts not already present), status is "success" iff both
streams downloaded and "partial" iff not both — which includes the case
where both downloads failed. -/
theorem c1_amended_status_invariant (env : Env) (bvid : String) :
    ((download_single_video env bvid).1.status = "success" →
      (download_single_video env bvid).1.video_downloaded = true ∧
        (download_single_video env bvid).1.audio_downloaded = true) ∧
    (env.infoFetch = Except.ok 0 →
      ¬(env.video_exists ∧ env.audio_exists) →
      env.playFetch = Except.ok 0 →
      (∃ resp, env.subFetch = Except.ok resp) →
      ((((download_single_video env bvid).1.status = "success") ↔
        ((download_single_video env bvid).1.video_downloaded = true ∧
          (download_single_video env bvid).1.audio_downloaded = true)) ∧
      (((download_single_video env bvid).1.status = "partial") ↔
        ¬((download_single_video env bvid).1.video_downloaded = true ∧
          (download_single_video env bvid).1.audio_downloaded = true)))) := by
  constructor
  · intro hs
    rcases env with ⟨info, ve, ae, play, v, a, sub, sd⟩
    cases info with
    | error e => simp [download_single_video, initRecord] at hs
    | ok code =>
      by_cases hc : code = 0
      · subst hc
        cases play with
        | error e =>
          cases ve <;> cases ae <;>
            simp [download_single_video, initRecord] at hs
        | ok pcode =>
          by_cases hp : pcode = 0
          · subst hp
            cases sub with
            | error e =>
              cases ve <;> cases ae <;>
                simp [download_single_video, initRecord] at hs
            | ok resp =>
              cases ve <;> cases ae <;> cases v <;> cases a <;>
                simp [download_single_video, initRecord] at hs ⊢
          · cases ve <;> cases ae <;>
              simp [download_single_video, initRecord, hp] at hs
      · simp [download_single_video, initRecord, hc] at hs
  · intro h0 h1 h2 h3
    obtain ⟨resp, h3⟩ := h3
    simp only [download_single_video, h0, h2, h3]
    rw [if_neg h1]
    cases hv : env.video_dl <;> cases ha : env.audio_dl <;>
      simp [hv, ha, initRecord]

/-- Witness for `c1_amended_status_invariant` at the concrete environment
`envBothFail`, with the reach-status-computation hypotheses discharged. -/
theorem c1_amended_status_invariant_witness :
    ((download_single_video envBothFail "BV1").1.status = "success" →
      (download_single_video envBothFail "BV1").1.video_downloaded = true ∧
        (download_single_video envBothFail "BV1").1.audio_downloaded = true) ∧
    ((((download_single_video envBothFail "BV1").1.status = "success") ↔
      ((download_single_video envBothFail "BV1").1.video_downloaded = true ∧
        (download_single_video envBothFail "BV1").1.audio_downloaded = true)) ∧
    (((download_single_video envBothFail "BV1").1.status = "partial") ↔
      ¬((download_single_video envBothFail "BV1").1.video_downloaded = true ∧
        (download_single_video envBothFail "BV1").1.audio_downloaded = true))) :=
  ⟨(c1_amended_status_invariant envBothFail "BV1").1,
    (c1_amended_status_invariant envBothFail "BV1").2 rfl (by decide) rfl
      ⟨{ status_code := 200, code := 0, subtitles := [] }, rfl⟩⟩

/-- C2 (counterexample): with both artifacts already on disk the task does
return "skipped", but it has already issued one network request (the
metadata fetch at line 110 precedes the existence check at line 125), so
the claimed "without making any network call" / "zero network calls the
second time" is false. -/
theorem c2_skip_makes_a_network_call :
    ((download_single_video envSkip "BV1").1.status = "skipped") ∧
    (download_single_video envSkip "BV1").2 = 1 ∧
    (download_single_video envSkip "BV1").2 ≠ 0 := by
  decide

/-- C2 (amended): when the metadata fetch succeeds with code 0 and both
artifact paths exist, the task returns the untouched initial record
(status "skipped", nothing downloaded) having issued exactly one network
request — the metadata fetch; re-running under the same conditions gives
the identical result, so the second run also makes exactly one request,
not zero. -/
theorem c2_amended_skip_one_request (env : Env) (bvid : String)
    (h0 : env.infoFetch = Except.ok 0)
    (hv : env.video_exists = true)
    (ha : env.audio_exists = true) :
    download_single_video env bvid = (initRecord bvid, 1) := by
  simp [download_single_video, h0, hv, ha]

/-- Witness for `c2_amended_skip_one_request` at `envSkip`. -/
theorem c2_amended_skip_one_request_witness :
    download_single_video envSkip "BV1" = (initRecord "BV1", 1) :=
  c2_amended_skip_one_request envSkip "BV1" rfl rfl rfl

/-- C4 (counterexample): both streams downloaded successfully, then the
subtitle-list fetch raised; the outer handler sets status to "failed", so
a subtitle-list failure is not always non-fatal and the status is not
computed from the two download flags. -/
theorem c4_subtitle_exception_is_fatal :
    ((download_single_video envSubRaise "BV1").1.video_downloaded = true) ∧
    ((download_single_video envSubRaise "BV1").1.audio_downloaded = true) ∧
    ((download_single_video envSubRaise "BV1").1.status = "failed") ∧
    ((download_single_video envSubRaise "BV1").1.status ≠ "success") := by
  decide

/-- C4 (amended): provided the subtitle-list request itself returns (does
not raise), subtitle handling is non-fatal: with both streams downloaded
the status is "success" whatever the subtitle response's HTTP status,
application code, or per-subtitle download results, and failed subtitle
downloads only reduce `subtitle_count`, which never exceeds the number of
subtitle entries. -/
theorem c4_amended_subtitles_nonfatal (env : Env) (bvid : String)
    (resp : SubtitleApiResponse)
    (h0 : env.infoFetch = Except.ok 0)
    (h1 : ¬(env.video_exists ∧ env.audio_exists))
    (h2 : env.playFetch = Except.ok 0)
    (h3 : env.subFetch = Except.ok resp)
    (hv : env.video_dl = true)
    (ha : env.audio_dl = true) :
    ((download_single_video env bvid).1.status = "success") ∧
    (download_single_video env bvid).1.subtitle_count =
      ((get_subtitle_urls resp).filter env.sub_dl).length ∧
    (download_single_video env bvid).1.subtitle_count ≤
      (get_subtitle_urls resp).length := by
  simp only [download_single_video, h0, h2, h3, hv, ha]
  rw [if_neg h1]
  simp [initRecord, List.length_filter_le]

/-- Witness for `c4_amended_subtitles_nonfatal`: a concrete environment
with two subtitle entries of which only one downloads successfully. -/
theorem c4_amended_subtitles_nonfatal_witness :
    ((download_single_video
        { infoFetch := Except.ok 0, video_exists := false, audio_exists := false
          playFetch := Except.ok 0, video_dl := true, audio_dl := true
          subFetch := Except.ok { status_code := 200, code := 0, subtitles := ["zh", "en"] }
          sub_dl := fun l => l = "zh" } "BV1").1.status = "success") ∧
    (download_single_video
        { infoFetch := Except.ok 0, video_exists := false, audio_exists := false
          playFetch := Except.ok 0, video_dl := true, audio_dl := true
          subFetch := Except.ok { status_code := 200, code := 0, subtitles := ["zh", "en"] }
          sub_dl := fun l => l = "zh" } "BV1").1.subtitle_count =
      ((get_subtitle_urls { status_code := 200, code := 0, subtitles := ["zh", "en"] }).filter
        (fun l => decide (l = "zh"))).length ∧
    (download_single_video
        { infoFetch := Except.ok 0, video_exists := false, audio_exists := false
          playFetch := Except.ok 0, video_dl := true, audio_dl := true
          subFetch := Except.ok { status_code := 200, code := 0, subtitles := ["zh", "en"] }
          sub_dl := fun l => l = "zh" } "BV1").1.subtitle_count ≤
      (get_subtitle_urls { status_code := 200, code := 0, subtitles := ["zh", "en"] }).length :=
  c4_amended_subtitles_nonfatal _ "BV1" _ rfl (by decide) rfl rfl rfl rfl

/-- `save_records` (`bilibili_api_client.py` lines 183-186): writes the
CSV file anew from exactly the in-memory `download_records`; the previous
file contents are discarded (pandas `to_csv` overwrites in full). -/
def save_records (download_records _oldFile : List DownloadRecord) :
    List DownloadRecord :=
  download_records

/-- State of one `BilibiliDownloader` instance together with the durable
records file and the history of flushes it performed. -/
structure SchedState where
  download_records : List DownloadRecord
  file : List DownloadRecord
  flushes : List (List DownloadRecord)
deriving DecidableEq, Repr

/-- `BilibiliDownloader.__init__` (lines 13-23): `download_records` starts
empty; the durable file keeps whatever a previous process left in it. -/
def newDownloader (file : List DownloadRecord) : SchedState :=
  { download_records := [], file := file, flushes := [] }

/-- One iteration of the `as_completed` loop in `batch_download`
(lines 172-181).  `Except.ok record` models `future.result()` returning:
the record is appended and `save_records` flushes the full log.
`Except.error` models an exception escaping the task: it is only printed
(logged); no record is appended and no flush happens. -/
def batchStep (st : SchedState) (t : Except String DownloadRecord) :
    SchedState :=
  match t with
  | Except.ok record =>
    let recs := st.download_records ++ [record]
    let f := save_records recs st.file
    { download_records := recs, file := f, flushes := st.flushes ++ [f] }
  | Except.error _ => st

/-- `batch_download` (lines 163-181): processes each task completion in
order through `batchStep`. -/
def batch_download (st : SchedState)
    (tasks : List (Except String DownloadRecord)) : SchedState :=
  tasks.foldl batchStep st

/-- A task completion that produced a record (as opposed to raising). -/
def isOkTask : Except String DownloadRecord → Bool
  | Except.ok _ => true
  | Except.error _ => false

/-- The records produced by the completions that did not raise, in order. -/
def okRecords (tasks : List (Except String DownloadRecord)) :
    List DownloadRecord :=
  tasks.filterMap (fun t => t.toOption)

/-- Sample outcome records for concrete instantiations. -/
def recA : DownloadRecord :=
  { bvid := "BVa", status := "success", video_downloaded := true,
    audio_downloaded := true, subtitle_count := 0, error_message := "" }

def recB : DownloadRecord :=
  { bvid := "BVb", status := "success", video_downloaded := true,
    audio_downloaded := true, subtitle_count := 1, error_message := "" }

theorem batch_download_records (tasks : List (Except String DownloadRecord)) :
    ∀ st : SchedState,
      (batch_download st tasks).download_records =
        st.download_records ++ okRecords tasks := by
  induction tasks with
  | nil => intro st; simp [batch_download, okRecords]
  | cons t ts ih =>
    intro st
    cases t with
    | ok r =>
      have h := ih (batchStep st (Except.ok r))
      simp only [batch_download, List.foldl] at h ⊢
      rw [h]
      simp [batchStep, save_records, okRecords, List.filterMap_cons,
        Except.toOption]
    | error e =>
      have h := ih st
      simp only [batch_download, List.foldl] at h ⊢
      rw [show batchStep st (Except.error e) = st from rfl, h]
      simp [okRecords, List.filterMap_cons, Except.toOption]

theorem batch_download_flush_count
    (tasks : List (Except String DownloadRecord)) :
    ∀ st : SchedState,
      (batch_download st tasks).flushes.length =
        st.flushes.length + tasks.countP isOkTask := by
  induction tasks with
  | nil => intro st; simp [batch_download]
  | cons t ts ih =>
    intro st
    cases t with
    | ok r =>
      have h := ih (batchStep st (Except.ok r))
      simp only [batch_download, List.foldl] at h ⊢
      rw [h]
      simp [batchStep, isOkTask, List.countP_cons]
      omega
    | error e =>
      have h := ih st
      simp only [batch_download, List.foldl] at h ⊢
      rw [show batchStep st (Except.error e) = st from rfl, h]
      simp [isOkTask, List.countP_cons]

theorem batch_download_flushes_sound
    (tasks : List (Except String DownloadRecord)) :
    ∀ st : SchedState,
      (∀ fl ∈ st.flushes, ∃ t, st.download_records = fl ++ t) →
      ∀ fl ∈ (batch_download st tasks).flushes,
        ∃ t, (batch_download st tasks).download_records = fl ++ t := by
  induction tasks with
  | nil => intro st h; simpa [batch_download] using h
  | cons t ts ih =>
    intro st h
    cases t with
    | ok r =>
      have step : batch_download st (Except.ok r :: ts) =
          batch_download (batchStep st (Except.ok r)) ts := rfl
      rw [step]
      apply ih
      intro fl hfl
      simp only [batchStep, save_records, List.mem_append, List.mem_singleton] at hfl
      rcases hfl with hfl | hfl
      · obtain ⟨t, ht⟩ := h fl hfl
        exact ⟨t ++ [r], by simp [batchStep, save_records, ht]⟩
      · exact ⟨[], by simp [batchStep, save_records, hfl]⟩
    | error e =>
      have step : batch_download st (Except.error e :: ts) =
          batch_download st ts := rfl
      rw [step]
      exact ih st h

theorem batch_download_last_flush
    (tasks : List (Except String DownloadRecord)) :
    ∀ st : SchedState,
      (st.flushes = [] ∨
        (st.flushes.getLast? = some st.download_records ∧
          st.file = st.download_records)) →
      ((batch_download st tasks).flushes = [] ∨
        ((batch_download st tasks).flushes.getLast? =
            some (batch_download st tasks).download_records ∧
          (batch_download st tasks).file =
            (batch_download st tasks).download_records)) := by
  induction tasks with
  | nil => intro st h; simpa [batch_download] using h
  | cons t ts ih =>
    intro st h
    cases t with
    | ok r =>
      have step : batch_download st (Except.ok r :: ts) =
          batch_download (batchStep st (Except.ok r)) ts := rfl
      rw [step]
      apply ih
      right
      constructor
      · simp [batchStep, save_records]
      · simp [batchStep, save_records]
    | error e =>
      have step : batch_download st (Except.error e :: ts) =
          batch_download st ts := rfl
      rw [step]
      exact ih st h

/-- C6 (counterexample): a task whose exception escapes the Per-Item
contract leaves the outcome log untouched — no record at all, in
particular no record with status "failed", is appended for it; the
scheduler only logs and moves on (here the sibling task's record is the
only one recorded). -/
theorem c6_no_failed_record_on_exception :
    (batch_download (newDownloader []) [Except.error "boom"]).download_records
        = [] ∧
    (batch_download (newDownloader [])
        [Except.error "boom", Except.ok recA]).download_records = [recA] := by
  decide

/-- C6 (amended): an escaping task exception is caught and only logged:
the scheduler state is left exactly as it was (no outcome record is
appended, no flush happens) and the remaining sibling tasks of the batch
are processed exactly as they would have been without the failing task. -/
theorem c6_amended_exception_logged_and_skipped (st : SchedState) (e : String)
    (tasks : List (Except String DownloadRecord)) :
    batch_download st (Except.error e :: tasks) = batch_download st tasks :=
  rfl

/-- C7: starting from a fresh downloader, the scheduler flushes the full
in-memory log once after every completion that produced a record (flush
count = count of ok completions); everything ever flushed is preserved in
the final log (each flush is an initial segment of it); and the most
recent flush always equals the full current log — so a crash mid-batch
loses only not-yet-completed tasks, nothing already flushed. -/
theorem c7_flush_after_every_completion (file0 : List DownloadRecord)
    (tasks : List (Except String DownloadRecord)) :
    ((batch_download (newDownloader file0) tasks).flushes.length =
      tasks.countP isOkTask) ∧
    (∀ fl ∈ (batch_download (newDownloader file0) tasks).flushes,
      ∃ t, (batch_download (newDownloader file0) tasks).download_records =
        fl ++ t) ∧
    ((batch_download (newDownloader file0) tasks).flushes = [] ∨
      ((batch_download (newDownloader file0) tasks).flushes.getLast? =
          some (batch_download (newDownloader file0) tasks).download_records ∧
        (batch_download (newDownloader file0) tasks).file =
          (batch_download (newDownloader file0) tasks).download_records)) := by
  refine ⟨?_, ?_, ?_⟩
  · rw [batch_download_flush_count tasks (newDownloader file0)]
    simp [newDownloader]
  · exact batch_download_flushes_sound tasks (newDownloader file0)
      (by simp [newDownloader])
  · exact batch_download_last_flush tasks (newDownloader file0)
      (Or.inl (by simp [newDownloader]))

/-- Witness for `c7_flush_after_every_completion` on a concrete batch of
two completed tasks around one escaping exception: the flush history is
exactly the two successive log snapshots. -/
theorem c7_flush_after_every_completion_witness :
    ((batch_download (newDownloader [])
        [Except.ok recA, Except.error "x", Except.ok recB]).flushes =
      [[recA], [recA, recB]]) ∧
    (((batch_download (newDownloader [])
        [Except.ok recA, Except.error "x", Except.ok recB]).flushes.length =
      [Except.ok recA, Except.error "x",
        Except.ok recB].countP isOkTask) ∧
    (∀ fl ∈ (batch_download (newDownloader [])
        [Except.ok recA, Except.error "x", Except.ok recB]).flushes,
      ∃ t, (batch_download (newDownloader [])
          [Except.ok recA, Except.error "x",
            Except.ok recB]).download_records = fl ++ t) ∧
    ((batch_download (newDownloader [])
        [Except.ok recA, Except.error "x", Except.ok recB]).flushes = [] ∨
      ((batch_download (newDownloader [])
          [Except.ok recA, Except.error "x",
            Except.ok recB]).flushes.getLast? =
          some (batch_download (newDownloader [])
            [Except.ok recA, Except.error "x",
              Except.ok recB]).download_records ∧
        (batch_download (newDownloader [])
            [Except.ok recA, Except.error "x", Except.ok recB]).file =
          (batch_download (newDownloader [])
            [Except.ok recA, Except.error "x",
              Except.ok recB]).download_records))) :=
  ⟨by decide,
    c7_flush_after_every_completion []
      [Except.ok recA, Except.error "x", Except.ok recB]⟩

/-- C10: a flush writes exactly the current instance's in-memory records,
ignoring what was in the file (`save_records` does not read the old file);
a freshly constructed downloader starts with an empty record list, so the
first flush of a restarted process replaces the whole file with just the
new process's records — here `[r]` — no matter what a previous process
had flushed. -/
theorem c10_flush_overwrites_previous_process (oldFile : List DownloadRecord)
    (r : DownloadRecord) (recs old1 old2 : List DownloadRecord) :
    (newDownloader oldFile).download_records = [] ∧
    save_records recs old1 = recs ∧
    save_records recs old1 = save_records recs old2 ∧
    (batchStep (newDownloader oldFile) (Except.ok r)).file = [r] :=
  ⟨rfl, rfl, rfl, rfl⟩

/-- What the aspect-ratio classifier observes about one on-disk file
(`is_portrait_video`, `video_portrait_downloader.py` lines 67-98):
whether the path exists, whether OpenCV could open it and read a first
frame, and the reported frame dimensions. -/
structure VideoProbe where
  file_found : Bool
  opened : Bool
  frame_read : Bool
  width : Nat
  height : Nat
deriving DecidableEq, Repr

/-- `is_portrait_video` (lines 67-98): every failure mode (missing file,
unopenable file, unreadable frame, non-positive dimensions) returns
false (reject); otherwise accept iff width / height ≤ 1, i.e. width ≤
height.  The exception handler at lines 96-98 also returns false and is
covered by the failure fields. -/
def is_portrait_video (p : VideoProbe) : Bool :=
  if ¬p.file_found then false
  else if ¬p.opened then false
  else if ¬p.frame_read then false
  else if p.width = 0 ∨ p.height = 0 then false
  else decide (p.width ≤ p.height)

/-- Source constant `target_count` (line 37). -/
def target_count : Nat := 2146

/-- Source constant `batch_size` (line 38). -/
def batch_size : Nat := 100

/-- The Init-phase classification loop over the ExistingArtifactIndex
(`video_portrait_downloader.py` lines 100-116), with the set of retained
on-disk artifacts (`disk`) threaded explicitly.  Per iteration: stop when
the target is reached; skip ids already in `downloaded_videos` (the
AcceptedSet loaded from the checkpoint); when a merged mp4 exists
(`hasMp4`), run the classifier (`portrait`) and append on accept.  The
source's loop body contains no deletion, so `disk` passes through
unchanged. -/
def initClassify (portrait hasMp4 : String → Bool) (target : Nat)
    (downloaded_videos disk : List String) :
    List String → List String × List String
  | [] => (downloaded_videos, disk)
  | bvid :: rest =>
    if target ≤ downloaded_videos.length then (downloaded_videos, disk)
    else if bvid ∈ downloaded_videos then
      initClassify portrait hasMp4 target downloaded_videos disk rest
    else if hasMp4 bvid then
      if portrait bvid then
        initClassify portrait hasMp4 target (downloaded_videos ++ [bvid]) disk
          rest
      else
        initClassify portrait hasMp4 target downloaded_videos disk rest
    else
      initClassify portrait hasMp4 target downloaded_videos disk rest

/-- The batch filter (`video_portrait_downloader.py` lines 152-159):
ids already in `existing_videos` (ExistingArtifactIndex) or in
`downloaded_videos` (AcceptedSet) are skipped; the rest form the batch
handed to the Batch Scheduler. -/
def filterNewBatch (existing_videos downloaded_videos : List String) :
    List String → List String
  | [] => []
  | bvid :: rest =>
    if bvid ∈ existing_videos then
      filterNewBatch existing_videos downloaded_videos rest
    else if bvid ∈ downloaded_videos then
      filterNewBatch existing_videos downloaded_videos rest
    else bvid :: filterNewBatch existing_videos downloaded_videos rest

/-- The per-wave classification loop (`video_portrait_downloader.py`
lines 184-234) over the filtered batch.  `mat bvid` models "the item's
directory exists and a usable mp4 file was found" (the two `continue`
paths of lines 187 and 201); `portrait` is the classifier.  On accept the
id is appended; on reject the artifact is deleted (a filesystem effect
the claims do not quantify over here); after either, the loop breaks once
the target count is reached (lines 233-234). -/
def classifyWave (mat portrait : String → Bool) (target : Nat)
    (downloaded_videos : List String) : List String → List String
  | [] => downloaded_videos
  | bvid :: rest =>
    if mat bvid then
      if portrait bvid then
        if target ≤ (downloaded_videos ++ [bvid]).length then
          downloaded_videos ++ [bvid]
        else
          classifyWave mat portrait target (downloaded_videos ++ [bvid]) rest
      else
        if target ≤ downloaded_videos.length then downloaded_videos
        else classifyWave mat portrait target downloaded_videos rest
    else classifyWave mat portrait target downloaded_videos rest

/-- Result of the main download while-loop: the final AcceptedSet, the
unconsumed candidate list, and the batches actually handed to
`batch_download` (in order). -/
structure LoopResult where
  downloaded_videos : List String
  remaining : List String
  dispatched : List (List String)
deriving DecidableEq, Repr

/-- Record one more dispatched batch in front of a loop result. -/
def consDispatched (nb : List String) (r : LoopResult) : LoopResult :=
  { r with dispatched := nb :: r.dispatched }

/-- The main download while-loop (`video_portrait_downloader.py` lines
140-237): while the accepted count is below `target` and candidates
remain, pop a batch of `bs` ids, filter it against the
ExistingArtifactIndex and the AcceptedSet, skip the wave when the filter
leaves nothing (line 161-163), otherwise dispatch the batch and classify
its artifacts.  In the source `bs` is the constant `batch_size = 100`;
the `bs ≠ 0` conjunct, vacuous at that constant, is what makes each wave
strictly consume candidates.  The loop is a total function — its
termination is proved by the strictly decreasing candidate length — and
returns normally in both terminal states. -/
def downloadLoop (mat portrait : String → Bool) (existing_videos : List String)
    (target bs : Nat) (downloaded_videos unique_bvids : List String) :
    LoopResult :=
  if h : downloaded_videos.length < target ∧ unique_bvids ≠ [] ∧ bs ≠ 0 then
    if filterNewBatch existing_videos downloaded_videos
        (unique_bvids.take bs) = [] then
      downloadLoop mat portrait existing_videos target bs downloaded_videos
        (unique_bvids.drop bs)
    else
      consDispatched
        (filterNewBatch existing_videos downloaded_videos (unique_bvids.take bs))
        (downloadLoop mat portrait existing_videos target bs
          (classifyWave mat portrait target downloaded_videos
            (filterNewBatch existing_videos downloaded_videos
              (unique_bvids.take bs)))
          (unique_bvids.drop bs))
  else
    { downloaded_videos := downloaded_videos
      remaining := unique_bvids
      dispatched := [] }
termination_by unique_bvids.length
decreasing_by
  all_goals
    simp only [List.length_drop]
    have h1 : unique_bvids ≠ [] := h.2.1
    have h2 : bs ≠ 0 := h.2.2
    have h3 : 0 < unique_bvids.length := List.length_pos.mpr h1
    omega

theorem mem_filterNewBatch (existing downloaded : List String) :
    ∀ (l : List String) (b : String),
      b ∈ filterNewBatch existing downloaded l →
        b ∈ l ∧ b ∉ existing ∧ b ∉ downloaded := by
  intro l
  induction l with
  | nil => intro b hb; simp [filterNewBatch] at hb
  | cons x rest ih =>
    intro b hb
    by_cases hx : x ∈ existing
    · rw [filterNewBatch, if_pos hx] at hb
      have h := ih b hb
      exact ⟨List.mem_cons_of_mem _ h.1, h.2⟩
    · by_cases hd : x ∈ downloaded
      · rw [filterNewBatch, if_neg hx, if_pos hd] at hb
        have h := ih b hb
        exact ⟨List.mem_cons_of_mem _ h.1, h.2⟩
      · rw [filterNewBatch, if_neg hx, if_neg hd] at hb
        rcases List.mem_cons.mp hb with rfl | hb2
        · exact ⟨List.mem_cons_self _ _, hx, hd⟩
        · have h := ih b hb2
          exact ⟨List.mem_cons_of_mem _ h.1, h.2⟩

theorem mem_classifyWave (mat portrait : String → Bool) (target : Nat) :
    ∀ (l downloaded : List String) (b : String), b ∈ downloaded →
      b ∈ classifyWave mat portrait target downloaded l := by
  intro l
  induction l with
  | nil => intro downloaded b hb; simpa [classifyWave] using hb
  | cons x rest ih =>
    intro downloaded b hb
    rw [classifyWave]
    by_cases hm : mat x = true
    · rw [if_pos hm]
      by_cases hp : portrait x = true
      · rw [if_pos hp]
        by_cases ht : target ≤ (downloaded ++ [x]).length
        · rw [if_pos ht]
          exact List.mem_append_left _ hb
        · rw [if_neg ht]
          exact ih _ b (List.mem_append_left _ hb)
      · rw [if_neg hp]
        by_cases ht : target ≤ downloaded.length
        · rw [if_pos ht]; exact hb
        · rw [if_neg ht]; exact ih _ b hb
    · rw [if_neg hm]
      exact ih _ b hb

theorem downloadLoop_dispatched_sound (mat portrait : String → Bool)
    (existing : List String) (target bs : Nat)
    (downloaded candidates : List String) :
    ∀ batch ∈ (downloadLoop mat portrait existing target bs downloaded
      candidates).dispatched,
      ∀ b ∈ batch, b ∉ existing ∧ b ∉ downloaded := by
  induction downloaded, candidates
    using downloadLoop.induct mat portrait existing target bs with
  | case1 downloaded candidates h hnb ih =>
    rw [downloadLoop, dif_pos h, if_pos hnb]
    exact ih
  | case2 downloaded candidates h hnb ih =>
    rw [downloadLoop, dif_pos h, if_neg hnb]
    simp only [consDispatched]
    intro batch hb b hbb
    rcases List.mem_cons.mp hb with rfl | hb2
    · have h2 := mem_filterNewBatch existing downloaded _ b hbb
      exact ⟨h2.2.1, h2.2.2⟩
    · have h2 := ih batch hb2 b hbb
      exact ⟨h2.1, fun hc => h2.2 (mem_classifyWave mat portrait target _ _ b hc)⟩
  | case3 downloaded candidates h =>
    rw [downloadLoop, dif_neg h]
    intro batch hb
    simp at hb

theorem downloadLoop_exit_condition (mat portrait : String → Bool)
    (existing : List String) (target bs : Nat)
    (downloaded candidates : List String) :
    ¬((downloadLoop mat portrait existing target bs downloaded
        candidates).downloaded_videos.length < target ∧
      (downloadLoop mat portrait existing target bs downloaded
        candidates).remaining ≠ [] ∧ bs ≠ 0) := by
  induction downloaded, candidates
    using downloadLoop.induct mat portrait existing target bs with
  | case1 downloaded candidates h hnb ih =>
    rw [downloadLoop, dif_pos h, if_pos hnb]
    exact ih
  | case2 downloaded candidates h hnb ih =>
    rw [downloadLoop, dif_pos h, if_neg hnb]
    simpa only [consDispatched] using ih
  | case3 downloaded candidates h =>
    rw [downloadLoop, dif_neg h]
    exact h

/-- C3 (counterexample): in the Init-phase loop, an id whose artifact
fails the classifier is merely not appended to the AcceptedSet — its
on-disk artifact is retained, not deleted (there is no deletion in
lines 100-116).  Here "BVx" fails classification, ends up outside the
accepted list, and is still on disk afterwards. -/
theorem c3_init_reject_retains_artifact :
    ((initClassify (fun _ => false) (fun _ => true) 5 [] ["BVx"]
      ["BVx"]).1 = []) ∧
    ((initClassify (fun _ => false) (fun _ => true) 5 [] ["BVx"]
      ["BVx"]).2 = ["BVx"]) := by
  decide

theorem initClassify_disk_sound (portrait hasMp4 : String → Bool)
    (target : Nat) (downloaded disk l : List String) :
    ((initClassify portrait hasMp4 target downloaded disk l).2 = disk) ∧
    (∀ b, b ∈ (initClassify portrait hasMp4 target downloaded disk l).1 →
      b ∈ downloaded ∨ (b ∈ l ∧ hasMp4 b = true ∧ portrait b = true)) := by
  induction l generalizing downloaded with
  | nil =>
    refine ⟨rfl, fun b hb => Or.inl ?_⟩
    simpa [initClassify] using hb
  | cons x rest ih =>
    rw [initClassify]
    by_cases ht : target ≤ downloaded.length
    · rw [if_pos ht]
      exact ⟨rfl, fun b hb => Or.inl hb⟩
    · rw [if_neg ht]
      by_cases hd : x ∈ downloaded
      · rw [if_pos hd]
        obtain ⟨h1, h2⟩ := ih downloaded
        refine ⟨h1, fun b hb => ?_⟩
        rcases h2 b hb with h | ⟨hl, hm2, hp2⟩
        · exact Or.inl h
        · exact Or.inr ⟨List.mem_cons_of_mem _ hl, hm2, hp2⟩
      · rw [if_neg hd]
        by_cases hm : hasMp4 x = true
        · rw [if_pos hm]
          by_cases hp : portrait x = true
          · rw [if_pos hp]
            obtain ⟨h1, h2⟩ := ih (downloaded ++ [x])
            refine ⟨h1, fun b hb => ?_⟩
            rcases h2 b hb with h | ⟨hl, hm2, hp2⟩
            · rcases List.mem_append.mp h with h | h
              · exact Or.inl h
              · have hbx : b = x := List.mem_singleton.mp h
                subst hbx
                exact Or.inr ⟨List.mem_cons_self _ _, hm, hp⟩
            · exact Or.inr ⟨List.mem_cons_of_mem _ hl, hm2, hp2⟩
          · rw [if_neg hp]
            obtain ⟨h1, h2⟩ := ih downloaded
            refine ⟨h1, fun b hb => ?_⟩
            rcases h2 b hb with h | ⟨hl, hm2, hp2⟩
            · exact Or.inl h
            · exact Or.inr ⟨List.mem_cons_of_mem _ hl, hm2, hp2⟩
        · rw [if_neg hm]
          obtain ⟨h1, h2⟩ := ih downloaded
          refine ⟨h1, fun b hb => ?_⟩
          rcases h2 b hb with h | ⟨hl, hm2, hp2⟩
          · exact Or.inl h
          · exact Or.inr ⟨List.mem_cons_of_mem _ hl, hm2, hp2⟩

theorem initClassify_mono (portrait hasMp4 : String → Bool) (target : Nat) :
    ∀ (l downloaded disk : List String) (b : String), b ∈ downloaded →
      b ∈ (initClassify portrait hasMp4 target downloaded disk l).1 := by
  intro l
  induction l with
  | nil =>
    intro downloaded disk b hb
    simpa [initClassify] using hb
  | cons x rest ih =>
    intro downloaded disk b hb
    rw [initClassify]
    by_cases ht : target ≤ downloaded.length
    · rw [if_pos ht]; exact hb
    · rw [if_neg ht]
      by_cases hd : x ∈ downloaded
      · rw [if_pos hd]; exact ih _ _ b hb
      · rw [if_neg hd]
        by_cases hm : hasMp4 x = true
        · rw [if_pos hm]
          by_cases hp : portrait x = true
          · rw [if_pos hp]
            exact ih _ _ b (List.mem_append_left _ hb)
          · rw [if_neg hp]; exact ih _ _ b hb
        · rw [if_neg hm]; exact ih _ _ b hb

theorem initClassify_complete (portrait hasMp4 : String → Bool)
    (target : Nat) :
    ∀ (l downloaded disk : List String) (b : String), b ∈ l →
      hasMp4 b = true → portrait b = true →
      b ∈ (initClassify portrait hasMp4 target downloaded disk l).1 ∨
        target ≤ (initClassify portrait hasMp4 target downloaded disk
          l).1.length := by
  intro l
  induction l with
  | nil =>
    intro downloaded disk b hb
    simp at hb
  | cons x rest ih =>
    intro downloaded disk b hb hm hp
    rw [initClassify]
    by_cases ht : target ≤ downloaded.length
    · rw [if_pos ht]; exact Or.inr ht
    · rw [if_neg ht]
      rcases List.mem_cons.mp hb with rfl | hb2
      · by_cases hd : b ∈ downloaded
        · rw [if_pos hd]
          exact Or.inl (initClassify_mono portrait hasMp4 target rest
            downloaded disk b hd)
        · rw [if_neg hd, if_pos hm, if_pos hp]
          exact Or.inl (initClassify_mono portrait hasMp4 target rest
            (downloaded ++ [b]) disk b
            (List.mem_append_right _ (List.mem_singleton_self b)))
      · by_cases hd : x ∈ downloaded
        · rw [if_pos hd]; exact ih _ _ b hb2 hm hp
        · rw [if_neg hd]
          by_cases hmx : hasMp4 x = true
          · rw [if_pos hmx]
            by_cases hpx : portrait x = true
            · rw [if_pos hpx]; exact ih _ _ b hb2 hm hp
            · rw [if_neg hpx]; exact ih _ _ b hb2 hm hp
          · rw [if_neg hmx]; exact ih _ _ b hb2 hm hp

/-- C3 (amended): during Init, ids from the ExistingArtifactIndex not yet
accepted are classified (while below target) and accepted exactly when a
merged file exists and the classifier accepts: already-accepted ids stay
in the set; every accepted id either was already in the set or passed
both checks; and every listed id with a merged file passing the
classifier is accepted unless the loop had already reached the target
count (the early break of lines 103-104).  Ids failing classification are
left out of the set but the loop performs no deletion — the on-disk
artifact set is returned unchanged.  (Deletion of rejected artifacts
happens only later, in the per-wave classification loop.) -/
theorem c3_amended_init_classification (portrait hasMp4 : String → Bool)
    (target : Nat) (downloaded disk l : List String) :
    ((initClassify portrait hasMp4 target downloaded disk l).2 = disk) ∧
    (∀ b, b ∈ downloaded →
      b ∈ (initClassify portrait hasMp4 target downloaded disk l).1) ∧
    (∀ b, b ∈ (initClassify portrait hasMp4 target downloaded disk l).1 →
      b ∈ downloaded ∨ (b ∈ l ∧ hasMp4 b = true ∧ portrait b = true)) ∧
    (∀ b ∈ l, hasMp4 b = true → portrait b = true →
      b ∈ (initClassify portrait hasMp4 target downloaded disk l).1 ∨
        target ≤ (initClassify portrait hasMp4 target downloaded disk
          l).1.length) :=
  ⟨(initClassify_disk_sound portrait hasMp4 target downloaded disk l).1,
    fun b hb => initClassify_mono portrait hasMp4 target l downloaded disk
      b hb,
    (initClassify_disk_sound portrait hasMp4 target downloaded disk l).2,
    fun b hb hm hp => initClassify_complete portrait hasMp4 target l
      downloaded disk b hb hm hp⟩

/-- Witness for `c3_amended_init_classification` at a concrete Init run
that accepts "BVp" and rejects "BVq": the disk is unchanged, "BVp" is
accounted for by classifier acceptance, and the acceptance-completeness
disjunction holds at "BVp". -/
theorem c3_amended_init_classification_witness :
    ((initClassify (fun b => b == "BVp") (fun _ => true) 5 []
        ["BVp", "BVq"] ["BVp", "BVq"]).2 = ["BVp", "BVq"]) ∧
    ("BVp" ∈ ([] : List String) ∨
      ("BVp" ∈ (["BVp", "BVq"] : List String) ∧
        (fun _ : String => true) "BVp" = true ∧
        (fun b => b == "BVp") "BVp" = true)) ∧
    ("BVp" ∈ (initClassify (fun b => b == "BVp") (fun _ => true) 5 []
        ["BVp", "BVq"] ["BVp", "BVq"]).1 ∨
      5 ≤ (initClassify (fun b => b == "BVp") (fun _ => true) 5 []
        ["BVp", "BVq"] ["BVp", "BVq"]).1.length) :=
  ⟨(c3_amended_init_classification (fun b => b == "BVp") (fun _ => true) 5
      [] ["BVp", "BVq"] ["BVp", "BVq"]).1,
    (c3_amended_init_classification (fun b => b == "BVp") (fun _ => true) 5
      [] ["BVp", "BVq"] ["BVp", "BVq"]).2.2.1 "BVp" (by decide),
    (c3_amended_init_classification (fun b => b == "BVp") (fun _ => true) 5
      [] ["BVp", "BVq"] ["BVp", "BVq"]).2.2.2 "BVp" (by decide) rfl
      (by decide)⟩

/-- C5: every batch the Selection Loop hands to the Batch Scheduler
excludes ids in the ExistingArtifactIndex and ids in the (current, hence
also the initially loaded) AcceptedSet; so after a restart that seeds the
set from the checkpoint, no checkpointed id is ever dispatched for
download again. -/
theorem c5_checkpoint_ids_never_redispatched (mat portrait : String → Bool)
    (existing checkpoint downloaded candidates : List String)
    (target bs : Nat)
    (hck : ∀ b ∈ checkpoint, b ∈ downloaded) :
    ∀ batch ∈ (downloadLoop mat portrait existing target bs downloaded
      candidates).dispatched,
      ∀ b ∈ batch, b ∉ checkpoint ∧ b ∉ existing ∧ b ∉ downloaded := by
  intro batch hb b hbb
  have h := downloadLoop_dispatched_sound mat portrait existing target bs
    downloaded candidates batch hb b hbb
  exact ⟨fun hc => h.2 (hck b hc), h.1, h.2⟩

/-- Witness for `c5_checkpoint_ids_never_redispatched`: a run whose first
dispatched batch is exactly ["a"]; the checkpointed id "c1" and the
already-materialized id "e1" were filtered out. -/
theorem c5_checkpoint_ids_never_redispatched_witness :
    "a" ∉ (["c1"] : List String) ∧ "a" ∉ (["e1"] : List String) ∧
      "a" ∉ (["c1"] : List String) :=
  c5_checkpoint_ids_never_redispatched (fun _ => true) (fun _ => false)
    ["e1"] ["c1"] ["c1"] ["a", "e1", "c1", "b"] 10 2 (by decide)
    ["a"] (by simp [downloadLoop, filterNewBatch, classifyWave,
      consDispatched]) "a" (by decide)

/-- C8: the loop (a total function — its well-founded definition is the
termination proof, each wave dropping a nonempty chunk of candidates)
ends only in the two terminal states: whenever the final accepted count
is still below target, the candidate list has been fully consumed
(Terminal-Exhausted), and the loop returns this result as an ordinary
value — a successful, non-error exit. -/
theorem c8_terminal_exhausted (mat portrait : String → Bool)
    (existing : List String) (target : Nat)
    (downloaded candidates : List String) (bs : Nat) (hbs : bs ≠ 0)
    (hbelow : (downloadLoop mat portrait existing target bs downloaded
      candidates).downloaded_videos.length < target) :
    (downloadLoop mat portrait existing target bs downloaded
      candidates).remaining = [] := by
  by_contra hne
  exact downloadLoop_exit_condition mat portrait existing target bs
    downloaded candidates ⟨hbelow, hne, hbs⟩

/-- Witness for `c8_terminal_exhausted`: two candidates, both rejected by
the classifier, target 3 — the loop drains the candidate list and stops. -/
theorem c8_terminal_exhausted_witness :
    (downloadLoop (fun _ => true) (fun _ => false) [] 3 1 []
      ["a", "b"]).remaining = [] :=
  c8_terminal_exhausted (fun _ => true) (fun _ => false) [] 3 [] ["a", "b"]
    1 (by decide) (by simp [downloadLoop, filterNewBatch, classifyWave,
      consDispatched])

/-- The characters the `re.sub` pattern of `sanitize_filename`
(`bilibili_api_client.py` line 27) replaces. -/
def illegal_chars : List Char := ['\\', '/', ':', '*', '?', '"', '<', '>', '|']

/-- `sanitize_filename` (lines 25-27): replace every filesystem-illegal
character with an underscore placeholder. -/
def sanitize_filename (filename : String) : String :=
  String.mk (filename.data.map (fun c => if c ∈ illegal_chars then '_' else c))

/-- The subtitle output filename as built at line 148:
`f'{bvid}_{language}.txt'` — the language label is interpolated raw;
`sanitize_filename` is never called on it (nor anywhere else in the
repository). -/
def subtitle_file_name (bvid language : String) : String :=
  bvid ++ "_" ++ language ++ ".txt"

/-- C9: the subtitle language label reaches the filename unsanitized.
For the language label "a/b" the code builds "BV1_a/b.txt", which still
contains the filesystem-illegal '/' and differs from what building with
the (defined but never called) `sanitize_filename` would give. -/
theorem c9_subtitle_language_unsanitized :
    subtitle_file_name "BV1" "a/b" = "BV1_a/b.txt" ∧
    '/' ∈ (subtitle_file_name "BV1" "a/b").data ∧
    subtitle_file_name "BV1" "a/b" ≠
      subtitle_file_name "BV1" (sanitize_filename "a/b") ∧
    sanitize_filename "a/b" = "a_b" := by
  decide
